import Mathlib

/-!
Verification of the Tilengine excerpt (src_lib/Tables.c and src_lib/Bitmap.c)
against its natural-language specification.

The blend-table engine (Tables.c) is embedded as a state machine over
`TablesState`; the bitmap operations (Bitmap.c) as state-passing functions
over `EngineState`.  Machine integers are modelled as `Nat` (all the values
involved stay far below 2^31); `uint8_t` stores are modelled with an explicit
`% 256`.  Heap pointers are modelled as `Option Nat` addresses into an
explicit heap, with `none` playing the role of `NULL`.
-/

/-- Modelled from the spec: the blend-mode selector (`TLN_Blend`, declared in
Tilengine.h, which is not part of this excerpt).  The seven modes listed in
the spec's per-mode formula table are exactly the modes the loops in Tables.c
iterate over (`BLEND_MIX25 .. MAX_BLEND - 1`). -/
inductive TLN_Blend where
  | mix25
  | mix50
  | mix75
  | add
  | sub
  | mod
  | custom
  deriving DecidableEq

/-- The iteration order `BLEND_MIX25, ..., BLEND_CUSTOM` of the
`for (c=BLEND_MIX25; c<MAX_BLEND; c++)` loops in Tables.c. -/
def blendModeList : List TLN_Blend :=
  [.mix25, .mix50, .mix75, .add, .sub, .mod, .custom]

/-- Per-mode entry expressions from the table-building loop in
`CreateBlendTables` (Tables.c lines 52-58), evaluated at `a, b` in `[0,255]`
with C `int` arithmetic.  The C conditional `(a-b) < 0 ? 0 : (a-b)` is
rendered with the comparison `a < b` because both operands are nonnegative. -/
def blendFormula : TLN_Blend → Nat → Nat → Nat
  | .mix25, a, b => (a + b + b) / 3
  | .mix50, a, b => (a + b) >>> 1
  | .mix75, a, b => (a + a + b) / 3
  | .add, a, b => if a + b > 255 then 255 else a + b
  | .sub, a, b => if a < b then 0 else a - b
  | .mod, a, b => a * b / 255
  | .custom, a, _ => a

/-- The closed-form per-mode formulas exactly as the spec states them
(spec section 4.3); kept separate from `blendFormula` so that the code's
expressions can be compared against the spec's. -/
def specBlendFormula : TLN_Blend → Nat → Nat → Nat
  | .mix25, a, b => (a + 2 * b) / 3
  | .mix50, a, b => (a + b) / 2
  | .mix75, a, b => (2 * a + b) / 3
  | .add, a, b => min (a + b) 255
  | .sub, a, b => a - b
  | .mod, a, b => a * b / 255
  | .custom, a, _ => a

/-- Contents of one populated 64 KiB blend LUT.  The population loops in
`CreateBlendTables` write entry `offset = (a<<8) + b` of every mode's table
for each `a, b` in `[0,255]`; every offset in `[0,65536)` decomposes uniquely
as `(a<<8) + b` with `a = offset >> 8` and `b = offset & 0xff`, so the array
contents after the loops are exactly this function of the offset.  Entries
are stored through a `uint8_t*`, hence the `% 256`. -/
def mkBlendTable (f : Nat → Nat → Nat) : Nat → Nat :=
  fun offset => f (offset / 256) (offset % 256) % 256

/-- One entry of the static `_blend_tables` pointer array.  `null` is a NULL
pointer; `uninit` is a freshly `malloc`ed, not yet populated buffer; `built`
is a populated buffer with the given contents; `dangling` is a non-NULL
pointer whose buffer has been `free`d (Tables.c never writes NULL back after
freeing). -/
inductive TableSlot where
  | null
  | uninit
  | built (t : Nat → Nat)
  | dangling

/-- Effect of `free (_blend_tables[c])` guarded by `!= NULL` on one slot:
a live buffer becomes dangling, NULL is untouched, and freeing an already
dangling pointer leaves it dangling (the pointer value is never changed). -/
def freeSlot : TableSlot → TableSlot
  | .null => .null
  | _ => .dangling

/-- Whether running `free` on this slot frees already-freed memory
(undefined behaviour in C); used to record double frees in the model. -/
def slotDoubleFree : TableSlot → Bool
  | .dangling => true
  | _ => false

/-- State of the blend-table engine: the static `instances` counter and
`_blend_tables` array of Tables.c, plus a flag recording whether any `free`
call so far was a double free. -/
structure TablesState where
  instances : Nat
  tables : TLN_Blend → TableSlot
  doubleFree : Bool

/-- Program start: static storage is zero-initialised, so `instances = 0`
and every `_blend_tables` entry is NULL. -/
def initTablesState : TablesState :=
  { instances := 0, tables := fun _ => .null, doubleFree := false }

/-- Pointwise update of the `_blend_tables` array. -/
def updSlot (tbl : TLN_Blend → TableSlot) (c : TLN_Blend) (v : TableSlot) :
    TLN_Blend → TableSlot :=
  fun x => if x = c then v else tbl x

/-- The allocation loop of `CreateBlendTables`: for each mode in order,
`_blend_tables[c] = malloc (BLEND_SIZE)`; on the first failed allocation the
slot holds the returned NULL and the function returns false immediately,
leaving later slots untouched.  `allocOk` is the allocation oracle. -/
def allocTables (allocOk : TLN_Blend → Bool) :
    (TLN_Blend → TableSlot) → List TLN_Blend → Bool × (TLN_Blend → TableSlot)
  | tbl, [] => (true, tbl)
  | tbl, c :: rest =>
    if allocOk c then allocTables allocOk (updSlot tbl c .uninit) rest
    else (false, updSlot tbl c .null)

/-- Function `CreateBlendTables` (Tables.c lines 28-61): increment the reference
count; if it was already positive, return true at once; otherwise run the
allocation loop (returning false on the first failure) and then the
population loops, which overwrite every entry of all seven freshly allocated
buffers with `blendFormula`. -/
def CreateBlendTables (allocOk : TLN_Blend → Bool) (s : TablesState) :
    Bool × TablesState :=
  if s.instances + 1 > 1 then
    (true, { s with instances := s.instances + 1 })
  else
    if (allocTables allocOk s.tables blendModeList).1 then
      (true, { s with
        instances := s.instances + 1,
        tables := fun c => TableSlot.built (mkBlendTable (blendFormula c)) })
    else
      (false, { s with
        instances := s.instances + 1,
        tables := (allocTables allocOk s.tables blendModeList).2 })

/-- The guarded decrement at the top of `DeleteBlendTables`:
`if (instances > 0) instances -= 1;`. -/
def tablesAfterDecrement (s : TablesState) : TablesState :=
  if s.instances > 0 then { s with instances := s.instances - 1 } else s

/-- The free loop of `DeleteBlendTables`: for every mode, if the stored
pointer is non-NULL it is passed to `free`; the pointer itself is not
cleared.  Records whether any of the frees was a double free. -/
def freeTables (s : TablesState) : TablesState :=
  { s with
    tables := fun c => freeSlot (s.tables c),
    doubleFree := s.doubleFree ||
      blendModeList.any (fun c => slotDoubleFree (s.tables c)) }

/-- Function `DeleteBlendTables` (Tables.c lines 64-79): guarded decrement, early
return while the count is nonzero, otherwise the free loop runs. -/
def DeleteBlendTables (s : TablesState) : TablesState :=
  if (tablesAfterDecrement s).instances ≠ 0 then tablesAfterDecrement s
  else freeTables (tablesAfterDecrement s)

/-- Function `SelectBlendTable` (Tables.c lines 82-85): plain array lookup. -/
def SelectBlendTable (s : TablesState) (mode : TLN_Blend) : TableSlot :=
  s.tables mode

/-- A call into the blend-table engine: `CreateBlendTables` with its
allocation oracle, or `DeleteBlendTables`. -/
inductive TablesOp where
  | create (allocOk : TLN_Blend → Bool)
  | delete

/-- Run a sequence of blend-table calls from a given state. -/
def runOps : List TablesOp → TablesState → TablesState
  | [], s => s
  | .create allocOk :: rest, s => runOps rest (CreateBlendTables allocOk s).2
  | .delete :: rest, s => runOps rest (DeleteBlendTables s)

/-- The call's allocations (if any) all succeed. -/
def allocsOk : TablesOp → Prop
  | .create allocOk => ∀ c, allocOk c = true
  | .delete => True

/-- The fully active engine state with reference count `n`. -/
def activeState (n : Nat) : TablesState :=
  { instances := n,
    tables := fun c => TableSlot.built (mkBlendTable (blendFormula c)),
    doubleFree := false }

/-- Iterates `n` successive successful `CreateBlendTables` calls. -/
def createIter : Nat → TablesState → TablesState
  | 0, s => s
  | n + 1, s => createIter n (CreateBlendTables (fun _ => true) s).2

/-- Iterates `n` successive `DeleteBlendTables` calls. -/
def deleteIter : Nat → TablesState → TablesState
  | 0, s => s
  | n + 1, s => deleteIter n (DeleteBlendTables s)

/-! ### Arithmetic helpers -/

/-- For `b < 256`, the packed LUT index `(a<<8)|b` is `a * 256 + b`. -/
theorem lor_low_eq_add (a b : Nat) (hb : b < 256) : (a <<< 8) ||| b = a * 256 + b := by
  apply Nat.eq_of_testBit_eq
  intro i
  rw [Nat.testBit_lor, Nat.testBit_shiftLeft]
  rcases Nat.lt_or_ge i 8 with hi | hi
  · have h8 : ¬ (8 ≤ i) := by omega
    simp only [decide_eq_false h8, Bool.false_and, Bool.false_or]
    have hpow : (2 : Nat) ^ i * 2 ^ (8 - i) = 256 := by
      rw [← Nat.pow_add]
      have h8i : i + (8 - i) = 8 := by omega
      rw [h8i]
    have hsplit : a * 256 + b = 2 ^ i * (2 ^ (8 - i) * a) + b := by
      rw [← hpow]; ring
    rw [hsplit, Nat.testBit_to_div_mod, Nat.testBit_to_div_mod,
        Nat.mul_add_div (Nat.two_pow_pos i)]
    have heven : 2 ^ (8 - i) * a % 2 = 0 := by
      have h2 : (2 : Nat) ^ (8 - i) = 2 * 2 ^ (8 - i - 1) := by
        rw [← Nat.pow_succ']
        congr 1
        omega
      rw [h2, Nat.mul_assoc]
      omega
    simp only [decide_eq_decide]
    omega
  · have hblt : b < 2 ^ i := by
      calc b < 256 := hb
        _ = 2 ^ 8 := by norm_num
        _ ≤ 2 ^ i := Nat.pow_le_pow_right (by norm_num) hi
    rw [Nat.testBit_lt_two_pow hblt]
    simp only [decide_eq_true (by omega : 8 ≤ i), Bool.true_and, Bool.or_false]
    have hdiv : (a * 256 + b) >>> 8 = a := by
      rw [Nat.shiftRight_eq_div_pow]
      have h256 : (2 : Nat) ^ 8 = 256 := by norm_num
      rw [h256]
      omega
  
    calc Nat.testBit a (i - 8)
        = Nat.testBit ((a * 256 + b) >>> 8) (i - 8) := by rw [hdiv]
      _ = Nat.testBit (a * 256 + b) (8 + (i - 8)) := Nat.testBit_shiftRight _
      _ = Nat.testBit (a * 256 + b) i := by
          congr 1
          omega

/-- Every populated table entry agrees with the spec's closed-form formula
at the packed index `(a<<8)|b`. -/
theorem mkBlendTable_eq_spec (mode : TLN_Blend) (a b : Nat)
    (ha : a ≤ 255) (hb : b ≤ 255) :
    mkBlendTable (blendFormula mode) ((a <<< 8) ||| b) = specBlendFormula mode a b := by
  rw [lor_low_eq_add a b (by omega)]
  show blendFormula mode ((a * 256 + b) / 256) ((a * 256 + b) % 256) % 256
      = specBlendFormula mode a b
  have hdiv : (a * 256 + b) / 256 = a := by omega
  have hmod : (a * 256 + b) % 256 = b := by omega
  rw [hdiv, hmod]
  cases mode with
  | mix25 =>
    show (a + b + b) / 3 % 256 = (a + 2 * b) / 3
    omega
  | mix50 =>
    show (a + b) >>> 1 % 256 = (a + b) / 2
    rw [Nat.shiftRight_eq_div_pow]
    norm_num
    omega
  | mix75 =>
    show (a + a + b) / 3 % 256 = (2 * a + b) / 3
    omega
  | add =>
    show (if a + b > 255 then 255 else a + b) % 256 = min (a + b) 255
    split <;> omega
  | sub =>
    show (if a < b then 0 else a - b) % 256 = a - b
    split <;> omega
  | mod =>
    show a * b / 255 % 256 = a * b / 255
    have hab : a * b ≤ 65025 := Nat.mul_le_mul ha hb
    omega
  | custom =>
    show a % 256 = a
    omega

/-! ### Lifecycle helper lemmas -/

/-- A `CreateBlendTables` call on an already-active engine is a pure
reference-count increment. -/
theorem create_active_snd (allocOk : TLN_Blend → Bool) (s : TablesState)
    (h : 0 < s.instances) :
    (CreateBlendTables allocOk s).2 = { s with instances := s.instances + 1 } := by
  unfold CreateBlendTables
  rw [if_pos (by omega)]

/-- The first successful activation from program start yields the fully
active state with count 1. -/
theorem create_from_init_snd :
    (CreateBlendTables (fun _ => true) initTablesState).2 = activeState 1 := rfl

/-- Iterating successful activations from an active state only increments
the count. -/
theorem createIter_active (n : Nat) : ∀ m : Nat, 0 < m →
    createIter n (activeState m) = activeState (m + n) := by
  induction n with
  | zero => intro m _; rfl
  | succ k ih =>
    intro m hm
    rw [createIter, create_active_snd _ _ (by exact hm)]
    have hstep : ({ activeState m with instances := (activeState m).instances + 1 }
        : TablesState) = activeState (m + 1) := rfl
    rw [hstep, ih (m + 1) (by omega)]
    congr 1
    omega

/-- A deactivation with at least two outstanding activations only
decrements the count and frees nothing. -/
theorem delete_active (m : Nat) (h : 2 ≤ m) :
    DeleteBlendTables (activeState m) = activeState (m - 1) := by
  have hdec : tablesAfterDecrement (activeState m) = activeState (m - 1) := by
    unfold tablesAfterDecrement
    rw [if_pos (show (activeState m).instances > 0 by
      show 0 < m
      omega)]
    rfl
  unfold DeleteBlendTables
  rw [hdec, if_pos (show (activeState (m - 1)).instances ≠ 0 by
    show m - 1 ≠ 0
    omega)]

/-- Iterated deactivation below the outstanding count frees nothing. -/
theorem deleteIter_active (k : Nat) : ∀ m : Nat, k < m →
    deleteIter k (activeState m) = activeState (m - k) := by
  induction k with
  | zero => intro m _; rfl
  | succ j ih =>
    intro m hm
    rw [deleteIter, delete_active m (by omega), ih (m - 1) (by omega)]
    congr 1
    omega

/-- The final deactivation frees every table but leaves the (now dangling)
pointers in the array. -/
theorem delete_active_one :
    DeleteBlendTables (activeState 1)
      = { instances := 0, tables := fun _ => TableSlot.dangling,
          doubleFree := false } := rfl

/-! ### C1 -/

/-- C1: after a successful activation from the Inactive state, every mode's
table is populated, each table holds at index `(a<<8)|b` the value of that
mode's closed-form formula (MIX25 `(a+2b)/3`, MIX50 `(a+b)/2`, MIX75
`(2a+b)/3`, ADD `min(a+b,255)`, SUB `max(a-b,0)`, MOD `(a*b)/255`, CUSTOM
`a`), and in particular the ADD table holds 255 at `(200<<8)|100`. -/
theorem c1_blend_tables_correct (allocOk : TLN_Blend → Bool)
    (h : (CreateBlendTables allocOk initTablesState).1 = true) :
    (∀ mode, SelectBlendTable (CreateBlendTables allocOk initTablesState).2 mode
        = TableSlot.built (mkBlendTable (blendFormula mode))) ∧
    (∀ mode a b, a ≤ 255 → b ≤ 255 →
        mkBlendTable (blendFormula mode) ((a <<< 8) ||| b) = specBlendFormula mode a b) ∧
    mkBlendTable (blendFormula TLN_Blend.add) ((200 <<< 8) ||| 100) = 255 := by
  refine ⟨?_, fun mode a b ha hb => mkBlendTable_eq_spec mode a b ha hb, by decide⟩
  intro mode
  unfold CreateBlendTables at h ⊢
  rw [if_neg (show ¬ initTablesState.instances + 1 > 1 by decide)] at h ⊢
  by_cases hA : (allocTables allocOk initTablesState.tables blendModeList).1
  · rw [if_pos hA]
    rfl
  · rw [if_neg hA] at h
    exact Bool.noConfusion h

/-- Witness for C1 with the all-successful allocation oracle, evaluated at
mode ADD and the pair `(200, 100)`. -/
theorem c1_blend_tables_correct_witness :
    (CreateBlendTables (fun _ => true) initTablesState).1 = true ∧
    SelectBlendTable (CreateBlendTables (fun _ => true) initTablesState).2 TLN_Blend.add
      = TableSlot.built (mkBlendTable (blendFormula TLN_Blend.add)) ∧
    mkBlendTable (blendFormula TLN_Blend.add) ((200 <<< 8) ||| 100)
      = specBlendFormula TLN_Blend.add 200 100 ∧
    mkBlendTable (blendFormula TLN_Blend.add) ((200 <<< 8) ||| 100) = 255 :=
  ⟨by decide,
   (c1_blend_tables_correct (fun _ => true) (by decide)).1 TLN_Blend.add,
   (c1_blend_tables_correct (fun _ => true) (by decide)).2.1 TLN_Blend.add 200 100
     (by decide) (by decide),
   (c1_blend_tables_correct (fun _ => true) (by decide)).2.2⟩

/-! ### C2 -/

/-- C2: for every `N ≥ 1`, activating `N` times from program start and
deactivating `N - 1` times leaves `SelectBlendTable` returning the valid,
still-populated table for every mode (no table is freed in between, the
outstanding count is 1), and the `N`-th deactivation brings the count to 0
and releases every table. -/
theorem c2_refcount_lifecycle (N : Nat) (h : 1 ≤ N) :
    (∀ mode, SelectBlendTable (deleteIter (N - 1) (createIter N initTablesState)) mode
        = TableSlot.built (mkBlendTable (blendFormula mode))) ∧
    (deleteIter (N - 1) (createIter N initTablesState)).instances = 1 ∧
    (DeleteBlendTables (deleteIter (N - 1) (createIter N initTablesState))).instances = 0 ∧
    (∀ mode,
      (DeleteBlendTables (deleteIter (N - 1) (createIter N initTablesState))).tables mode
        = TableSlot.dangling) := by
  have hc : createIter N initTablesState = activeState N := by
    obtain ⟨M, rfl⟩ : ∃ M, N = M + 1 := ⟨N - 1, by omega⟩
    rw [createIter, create_from_init_snd, createIter_active M 1 (by omega)]
    congr 1
    omega
  have hd : deleteIter (N - 1) (createIter N initTablesState) = activeState 1 := by
    rw [hc, deleteIter_active (N - 1) N (by omega)]
    congr 1
    omega
  rw [hd, delete_active_one]
  exact ⟨fun mode => rfl, rfl, rfl, fun mode => rfl⟩

/-- Witness for C2 at `N = 3`, evaluated at mode ADD. -/
theorem c2_refcount_lifecycle_witness :
    SelectBlendTable (deleteIter (3 - 1) (createIter 3 initTablesState)) TLN_Blend.add
      = TableSlot.built (mkBlendTable (blendFormula TLN_Blend.add)) ∧
    (deleteIter (3 - 1) (createIter 3 initTablesState)).instances = 1 ∧
    (DeleteBlendTables (deleteIter (3 - 1) (createIter 3 initTablesState))).instances = 0 ∧
    (DeleteBlendTables (deleteIter (3 - 1) (createIter 3 initTablesState))).tables
        TLN_Blend.add = TableSlot.dangling :=
  ⟨(c2_refcount_lifecycle 3 (by omega)).1 TLN_Blend.add,
   (c2_refcount_lifecycle 3 (by omega)).2.1,
   (c2_refcount_lifecycle 3 (by omega)).2.2.1,
   (c2_refcount_lifecycle 3 (by omega)).2.2.2 TLN_Blend.add⟩

/-! ### C3 -/

/-- C3 counterexample: activating once (all allocations succeeding) and then
deactivating returns the count to 0, yet the MIX25 entry of the table array
is a stale non-null (dangling) pointer — `DeleteBlendTables` frees the
buffers but never writes NULL back into `_blend_tables`. -/
theorem c3_stale_pointer_counterexample :
    (runOps [TablesOp.create (fun _ => true), TablesOp.delete] initTablesState).instances
        = 0 ∧
    (runOps [TablesOp.create (fun _ => true), TablesOp.delete] initTablesState).tables
        TLN_Blend.mix25 ≠ TableSlot.null := by
  refine ⟨rfl, ?_⟩
  show TableSlot.dangling ≠ TableSlot.null
  intro hcontra
  cases hcontra

/-- The state invariant that actually holds of Tables.c: while `instances`
is positive every table is a live, fully populated buffer; when `instances`
is 0 every slot is NULL or a stale dangling pointer (so no live table
survives), but slots are not reset to NULL. -/
def tablesInv (s : TablesState) : Prop :=
  (0 < s.instances →
    ∀ c, s.tables c = TableSlot.built (mkBlendTable (blendFormula c))) ∧
  (s.instances = 0 →
    ∀ c, s.tables c = TableSlot.null ∨ s.tables c = TableSlot.dangling)

/-- A successful allocation loop reports success. -/
theorem allocTables_all_ok (ok : TLN_Blend → Bool) (hok : ∀ c, ok c = true) :
    ∀ (l : List TLN_Blend) (tbl : TLN_Blend → TableSlot),
      (allocTables ok tbl l).1 = true := by
  intro l
  induction l with
  | nil => intro tbl; rfl
  | cons d rest ih =>
    intro tbl
    rw [allocTables, if_pos (hok d)]
    exact ih _

/-- One engine call with successful allocations preserves `tablesInv`. -/
theorem tablesInv_step (s : TablesState) (op : TablesOp) (hop : allocsOk op)
    (hs : tablesInv s) :
    tablesInv (runOps [op] s) := by
  cases op with
  | create allocOk =>
    show tablesInv (CreateBlendTables allocOk s).2
    unfold CreateBlendTables
    by_cases hpos : s.instances + 1 > 1
    · rw [if_pos hpos]
      exact ⟨fun _ c => hs.1 (by omega) c,
        fun hzero => absurd (show s.instances + 1 = 0 from hzero) (by omega)⟩
    · rw [if_neg hpos, if_pos (allocTables_all_ok allocOk hop blendModeList s.tables)]
      exact ⟨fun _ c => rfl,
        fun hzero => absurd (show s.instances + 1 = 0 from hzero) (by omega)⟩
  | delete =>
    show tablesInv (DeleteBlendTables s)
    unfold DeleteBlendTables tablesAfterDecrement
    by_cases hpos : s.instances > 0
    · rw [if_pos hpos]
      by_cases hone : s.instances - 1 = 0
      · rw [if_neg (by simpa using hone)]
        refine ⟨fun habs _ => absurd habs (by simpa using hone), fun _ c => ?_⟩
        have hbuilt := hs.1 hpos c
        show freeSlot (s.tables c) = TableSlot.null ∨ freeSlot (s.tables c) = TableSlot.dangling
        rw [hbuilt]
        exact Or.inr rfl
      · rw [if_pos (by simpa using hone)]
        exact ⟨fun _ c => hs.1 hpos c, fun hzero => absurd hzero hone⟩
    · have hzero : s.instances = 0 := by omega
      rw [if_neg hpos, if_neg (by simpa using hzero)]
      refine ⟨fun habs _ => absurd (show 0 < s.instances from habs) (by omega),
        fun _ c => ?_⟩
      rcases hs.2 hzero c with hc | hc <;>
        · show freeSlot (s.tables c) = TableSlot.null ∨ freeSlot (s.tables c) = TableSlot.dangling
          rw [hc]
          first
            | exact Or.inl rfl
            | exact Or.inr rfl

/-- Running any call sequence from a `tablesInv` state, with all
allocations succeeding, stays in `tablesInv`. -/
theorem tablesInv_runOps (ops : List TablesOp) :
    ∀ s : TablesState, (∀ op ∈ ops, allocsOk op) → tablesInv s →
      tablesInv (runOps ops s) := by
  induction ops with
  | nil => intro s _ hs; exact hs
  | cons op rest ih =>
    intro s hall hs
    have hstep : tablesInv (runOps [op] s) :=
      tablesInv_step s op (hall op (List.mem_cons_self op rest)) hs
    have hrun : runOps (op :: rest) s = runOps rest (runOps [op] s) := by
      cases op <;> rfl
    rw [hrun]
    exact ih _ (fun o ho => hall o (List.mem_cons_of_mem op ho)) hstep

/-- C3 amended: in every state reachable by a sequence of `CreateBlendTables`
and `DeleteBlendTables` calls in which all allocations succeed, the tables
are live, non-null and fully populated whenever `instances > 0`, and no live
table survives once the count returns to 0 — but after the count returns to
0 the table array retains stale non-null (dangling) pointers rather than
being reset to NULL. -/
theorem c3_tables_iff_amended (ops : List TablesOp)
    (h : ∀ op ∈ ops, allocsOk op) :
    tablesInv (runOps ops initTablesState) :=
  tablesInv_runOps ops initTablesState h
    ⟨fun habs => absurd habs (by decide), fun _ c => Or.inl rfl⟩

/-- Witness for C3's amended invariant on the concrete activate/deactivate
cycle. -/
theorem c3_tables_iff_amended_witness :
    (runOps [TablesOp.create (fun _ => true), TablesOp.delete] initTablesState).tables
        TLN_Blend.add = TableSlot.null ∨
    (runOps [TablesOp.create (fun _ => true), TablesOp.delete] initTablesState).tables
        TLN_Blend.add = TableSlot.dangling :=
  (c3_tables_iff_amended [TablesOp.create (fun _ => true), TablesOp.delete]
    (by
      intro op hm
      rcases List.mem_cons.1 hm with rfl | hm2
      · exact fun c => rfl
      · rcases List.mem_cons.1 hm2 with rfl | hm3
        · trivial
        · cases hm3)).2 rfl TLN_Blend.add

/-! ### C4 -/

/-- Allocation oracle for which only the first (MIX25) `malloc` succeeds. -/
def c4AllocFirstOnly : TLN_Blend → Bool := fun c => decide (c = TLN_Blend.mix25)

/-- C4 counterexample: when the second allocation of the Inactive→Active
transition fails, `CreateBlendTables` returns false, but `instances` is left
at 1 (not restored to 0) and the already-allocated MIX25 buffer is retained
(its slot is non-null), so the state is not as it was before the call. -/
theorem c4_no_rollback_counterexample :
    (CreateBlendTables c4AllocFirstOnly initTablesState).1 = false ∧
    (CreateBlendTables c4AllocFirstOnly initTablesState).2.instances = 1 ∧
    (CreateBlendTables c4AllocFirstOnly initTablesState).2.tables TLN_Blend.mix25
      = TableSlot.uninit ∧
    (CreateBlendTables c4AllocFirstOnly initTablesState).2.tables TLN_Blend.mix50
      = TableSlot.null :=
  ⟨rfl, rfl, rfl, rfl⟩

/-- Slots produced by a failing allocation loop started from slots that are
all allocated-or-null remain allocated-or-null. -/
theorem allocTables_slots (ok : TLN_Blend → Bool) :
    ∀ (l : List TLN_Blend) (tbl : TLN_Blend → TableSlot),
      (∀ c, tbl c = TableSlot.uninit ∨ tbl c = TableSlot.null) →
      ∀ c, (allocTables ok tbl l).2 c = TableSlot.uninit ∨
           (allocTables ok tbl l).2 c = TableSlot.null := by
  intro l
  induction l with
  | nil => intro tbl h c; exact h c
  | cons d rest ih =>
    intro tbl h c
    rw [allocTables]
    by_cases hok : ok d
    · rw [if_pos hok]
      refine ih _ (fun x => ?_) c
      unfold updSlot
      by_cases hx : x = d
      · rw [if_pos hx]; exact Or.inl rfl
      · rw [if_neg hx]; exact h x
    · rw [if_neg hok]
      show updSlot tbl d TableSlot.null c = TableSlot.uninit ∨
           updSlot tbl d TableSlot.null c = TableSlot.null
      unfold updSlot
      by_cases hx : c = d
      · rw [if_pos hx]; exact Or.inr rfl
      · rw [if_neg hx]; exact h c

/-- C4 amended: if an allocation fails during the Inactive→Active transition
of `CreateBlendTables`, the call returns failure but performs no rollback:
the `instances` counter is left at 1, and each table slot is either a
retained, allocated-but-unpopulated buffer (for allocations made before the
failure) or NULL — partially allocated tables can be retained. -/
theorem c4_alloc_failure_amended (allocOk : TLN_Blend → Bool)
    (h : (CreateBlendTables allocOk initTablesState).1 = false) :
    (CreateBlendTables allocOk initTablesState).2.instances = 1 ∧
    ∀ c, (CreateBlendTables allocOk initTablesState).2.tables c = TableSlot.uninit ∨
         (CreateBlendTables allocOk initTablesState).2.tables c = TableSlot.null := by
  unfold CreateBlendTables at h ⊢
  rw [if_neg (show ¬ initTablesState.instances + 1 > 1 by decide)] at h ⊢
  by_cases hA : (allocTables allocOk initTablesState.tables blendModeList).1
  · rw [if_pos hA] at h
    exact Bool.noConfusion h
  · rw [if_neg hA]
    exact ⟨rfl,
      allocTables_slots allocOk blendModeList initTablesState.tables
        (fun x => Or.inr rfl)⟩

/-- Witness for C4's amended statement with every allocation failing,
evaluated at the MIX25 slot. -/
theorem c4_alloc_failure_amended_witness :
    (CreateBlendTables (fun _ => false) initTablesState).1 = false ∧
    (CreateBlendTables (fun _ => false) initTablesState).2.instances = 1 ∧
    ((CreateBlendTables (fun _ => false) initTablesState).2.tables TLN_Blend.mix25
        = TableSlot.uninit ∨
     (CreateBlendTables (fun _ => false) initTablesState).2.tables TLN_Blend.mix25
        = TableSlot.null) :=
  ⟨rfl,
   (c4_alloc_failure_amended (fun _ => false) rfl).1,
   (c4_alloc_failure_amended (fun _ => false) rfl).2 TLN_Blend.mix25⟩

/-! ### C5 -/

/-- C5 (code-bug evidence): after one full activate/deactivate cycle the
count is back at 0 and no double free has happened, but one further
`DeleteBlendTables` call — with `instances` already 0 — falls through its
early-return test (the counter stays 0, so `instances != 0` is false) and
runs the free loop again over the stale non-null pointers, freeing
already-freed memory.  The claim (and the spec's "no-op floor at 0") says
such a call must touch nothing. -/
theorem c5_delete_at_zero_double_free :
    (runOps [TablesOp.create (fun _ => true), TablesOp.delete] initTablesState).instances
        = 0 ∧
    (runOps [TablesOp.create (fun _ => true), TablesOp.delete] initTablesState).doubleFree
        = false ∧
    (DeleteBlendTables
        (runOps [TablesOp.create (fun _ => true), TablesOp.delete] initTablesState)).instances
        = 0 ∧
    (DeleteBlendTables
        (runOps [TablesOp.create (fun _ => true), TablesOp.delete] initTablesState)).doubleFree
        = true :=
  ⟨rfl, rfl, rfl, rfl⟩

/-! ### Bitmap.c: object model and bitmap operations

The object model (Object.c/Object.h: `CreateBaseObject`, `CheckBaseObject`,
`CloneBaseObject`, `DeleteBaseObject`, `ObjectOwner`) and the `struct Bitmap`
layout (Bitmap.h) are not part of the source excerpt; they are modelled from
the spec (sections 4.1 and 3).  Objects live on an explicit heap indexed by
`Nat` addresses; a C object reference is an `Option Nat` (`none` = NULL). -/

/-- Modelled from the spec: the engine-wide last-error codes used by
Bitmap.c (`TLN_SetLastError` and `TLN_Error` live outside the excerpt). -/
inductive TLN_Error where
  | ok
  | outOfMemory
  | refBitmap
  | refPalette
  | wrongSize
  deriving DecidableEq

/-- Modelled from the spec: the object-model type tags relevant here
(`OT_BITMAP`, `OT_PALETTE`). -/
inductive ObjType where
  | bitmap
  | palette
  deriving DecidableEq

/-- The bitmap payload fields set by `TLN_CreateBitmap`: width, height, bits
per pixel, pitch, and the associated palette reference. -/
structure BitmapFields where
  width : Nat
  height : Nat
  bpp : Nat
  pitch : Nat
  palette : Option Nat
  deriving DecidableEq

/-- Kind-specific payload of a typed object. -/
inductive ObjData where
  | bitmapD (f : BitmapFields)
  | paletteD
  deriving DecidableEq

/-- The type tag stamped on a block. -/
def tagOf : ObjData → ObjType
  | .bitmapD _ => .bitmap
  | .paletteD => .palette

/-- Modelled from the spec: a typed object block — type tag (derived from
the payload kind), ownership flag, the allocation size that was requested
for the block, and the payload. -/
structure Obj where
  owns : Bool
  size : Nat
  data : ObjData
  deriving DecidableEq

/-- Modelled from the spec: engine state visible to Bitmap.c — the heap of
typed objects, a fresh-address counter, the process-wide last-error state,
and the size of the most recent allocation request (to observe what
`CreateBaseObject` was asked for, even when the allocation fails). -/
structure EngineState where
  heap : Nat → Option Obj
  nextAddr : Nat
  lastError : TLN_Error
  lastAllocReq : Option Nat

/-- An engine state with an empty heap. -/
def emptyState : EngineState :=
  { heap := fun _ => none, nextAddr := 0, lastError := .ok, lastAllocReq := none }

/-- Zero-initialised payload for a freshly created block (the object model
allocates zeroed memory). -/
def zeroData : ObjType → ObjData
  | .bitmap => .bitmapD { width := 0, height := 0, bpp := 0, pitch := 0, palette := none }
  | .palette => .paletteD

/-- Modelled from the spec (4.1 CheckType): pure predicate — a reference is
accepted when it is non-NULL, refers to a live block, and the block's type
tag matches the expected tag. -/
def CheckBaseObject (s : EngineState) (ref : Option Nat) (t : ObjType) : Bool :=
  match ref with
  | none => false
  | some a =>
    match s.heap a with
    | none => false
    | some o => decide (tagOf o.data = t)

/-- Modelled from the spec (4.1 Create): allocate a zero-initialised block
of the requested size, stamp the type tag, return NULL on allocation
failure; the requested size is recorded in `lastAllocReq` either way. -/
def CreateBaseObject (allocOk : Bool) (t : ObjType) (size : Nat)
    (s : EngineState) : Option Nat × EngineState :=
  if allocOk then
    (some s.nextAddr,
     { s with
       heap := fun n => if n = s.nextAddr
         then some { owns := false, size := size, data := zeroData t }
         else s.heap n,
       nextAddr := s.nextAddr + 1,
       lastAllocReq := some size })
  else
    (none, { s with lastAllocReq := some size })

/-- Modelled from the spec (4.1 Clone): allocate a new block that is a
byte-for-byte shallow copy of the source block (same size request), or NULL
on allocation failure. -/
def CloneBaseObject (allocOk : Bool) (s : EngineState) (ref : Option Nat) :
    Option Nat × EngineState :=
  match ref with
  | none => (none, s)
  | some a =>
    match s.heap a with
    | none => (none, s)
    | some o =>
      if allocOk then
        (some s.nextAddr,
         { s with
           heap := fun n => if n = s.nextAddr then some o else s.heap n,
           nextAddr := s.nextAddr + 1,
           lastAllocReq := some o.size })
      else
        (none, { s with lastAllocReq := some o.size })

/-- Modelled from the spec (4.1 Delete): release the block a reference
points to; releasing NULL is a no-op. -/
def DeleteBaseObject (s : EngineState) (ref : Option Nat) : EngineState :=
  match ref with
  | none => s
  | some a => { s with heap := fun n => if n = a then none else s.heap n }

/-- Modelled from the spec: `ObjectOwner` — the block's ownership flag. -/
def ObjectOwner (s : EngineState) (ref : Option Nat) : Bool :=
  match ref with
  | none => false
  | some a =>
    match s.heap a with
    | none => false
    | some o => o.owns

/-- The bitmap payload a reference points to, if it points to a live bitmap
block. -/
def getBitmapFields (s : EngineState) (ref : Option Nat) : Option BitmapFields :=
  match ref with
  | none => none
  | some a =>
    match s.heap a with
    | none => none
    | some o =>
      match o.data with
      | .bitmapD f => some f
      | .paletteD => none

/-- Update the payload of the bitmap block at address `a`. -/
def setBitmap (s : EngineState) (a : Nat) (g : BitmapFields → BitmapFields) :
    EngineState :=
  { s with
    heap := fun n =>
      if n = a then
        match s.heap n with
        | some o =>
          match o.data with
          | .bitmapD f => some { o with data := .bitmapD (g f) }
          | .paletteD => some o
        | none => none
      else s.heap n }

/-- The pitch computation of `TLN_CreateBitmap` (Bitmap.c line 59):
`pitch = (((width * bpp)>>3) + 3) & ~0x03`.  For the nonnegative in-range
values used here, `x & ~0x03` clears the two lowest bits of `x`, i.e.
subtracts `x % 4`. -/
def bitmapPitch (width bpp : Nat) : Nat :=
  ((width * bpp) >>> 3 + 3) - ((width * bpp) >>> 3 + 3) % 4

/-- The spec's `align4`: the least multiple of 4 that is at least `x`. -/
def specAlign4 (x : Nat) : Nat := (x + 3) / 4 * 4

/-- The spec's `ceil(width*bpp/8)`: the minimal number of bytes for one row. -/
def specCeilRow (width bpp : Nat) : Nat := (width * bpp + 7) / 8

/-- Function `TLN_CreateBitmap` (Bitmap.c lines 54-76): compute the pitch and the
block size `sizeof(struct Bitmap) + pitch*height`, allocate through the
object model, fill in the payload fields and set last error OK, or set
OutOfMemory and return NULL on allocation failure.  `hdr` stands for
`sizeof(struct Bitmap)` (Bitmap.h is outside the excerpt); `allocOk` is the
allocation oracle. -/
def TLN_CreateBitmap (hdr : Nat) (allocOk : Bool) (width height bpp : Nat)
    (s : EngineState) : Option Nat × EngineState :=
  match CreateBaseObject allocOk ObjType.bitmap
      (hdr + bitmapPitch width bpp * height) s with
  | (some a, s1) =>
    (some a,
     { setBitmap s1 a (fun _ =>
         { width := width, height := height, bpp := bpp,
           pitch := bitmapPitch width bpp, palette := none }) with
       lastError := TLN_Error.ok })
  | (none, s1) => (none, { s1 with lastError := TLN_Error.outOfMemory })

/-- Function `TLN_CloneBitmap` (Bitmap.c lines 92-112): type-check the source, then
shallow-clone through the object model; last error is WrongReferenceBitmap,
OK, or OutOfMemory respectively. -/
def TLN_CloneBitmap (allocOk : Bool) (s : EngineState) (src : Option Nat) :
    Option Nat × EngineState :=
  if CheckBaseObject s src ObjType.bitmap then
    match CloneBaseObject allocOk s src with
    | (some a, s1) => (some a, { s1 with lastError := TLN_Error.ok })
    | (none, s1) => (none, { s1 with lastError := TLN_Error.outOfMemory })
  else
    (none, { s with lastError := TLN_Error.refBitmap })

/-- Function `TLN_DeleteBitmap` (Bitmap.c lines 124-139): type-check; if the bitmap
owns its palette, delete the palette object first, then the bitmap block;
on a failed check set WrongReferenceBitmap and return false. -/
def TLN_DeleteBitmap (s : EngineState) (ref : Option Nat) : Bool × EngineState :=
  if CheckBaseObject s ref ObjType.bitmap then
    (true,
     { DeleteBaseObject
         (if ObjectOwner s ref then
            DeleteBaseObject s
              (match getBitmapFields s ref with
               | some f => f.palette
               | none => none)
          else s)
         ref with
       lastError := TLN_Error.ok })
  else
    (false, { s with lastError := TLN_Error.refBitmap })

/-- Function `TLN_GetBitmapPtr` (Bitmap.c lines 160-179): type-check, then the bounds
test `x >= bitmap->width || y >= bitmap->height` (only upper bounds; `x` and
`y` are C `int`s, modelled as `Int`), then return a pointer into the pixel
storage.  The returned byte offset `y*pitch + x*bpp/8` is modelled from the
spec (the helper `get_bitmap_ptr` lives in Bitmap.h, outside the excerpt). -/
def TLN_GetBitmapPtr (s : EngineState) (ref : Option Nat) (x y : Int) :
    Option Int × EngineState :=
  if CheckBaseObject s ref ObjType.bitmap then
    match getBitmapFields s ref with
    | some f =>
      if (f.width : Int) ≤ x ∨ (f.height : Int) ≤ y then
        (none, { s with lastError := TLN_Error.wrongSize })
      else
        (some (y * (f.pitch : Int) + x * (f.bpp : Int) / 8),
         { s with lastError := TLN_Error.ok })
    | none => (none, { s with lastError := TLN_Error.refBitmap })
  else
    (none, { s with lastError := TLN_Error.refBitmap })

/-- Function `TLN_GetBitmapPalette` (Bitmap.c lines 193-205): type-check and return
the stored palette reference (possibly NULL). -/
def TLN_GetBitmapPalette (s : EngineState) (ref : Option Nat) :
    Option Nat × EngineState :=
  if CheckBaseObject s ref ObjType.bitmap then
    match getBitmapFields s ref with
    | some f => (f.palette, { s with lastError := TLN_Error.ok })
    | none => (none, { s with lastError := TLN_Error.ok })
  else
    (none, { s with lastError := TLN_Error.refBitmap })

/-- Function `TLN_SetBitmapPalette` (Bitmap.c lines 219-238): type-check the bitmap,
then the palette, then store the (shared, not owned) palette reference. -/
def TLN_SetBitmapPalette (s : EngineState) (ref pal : Option Nat) :
    Bool × EngineState :=
  if CheckBaseObject s ref ObjType.bitmap then
    if CheckBaseObject s pal ObjType.palette then
      match ref with
      | some a =>
        (true, { setBitmap s a (fun f => { f with palette := pal }) with
                 lastError := TLN_Error.ok })
      | none => (true, { s with lastError := TLN_Error.ok })
    else
      (false, { s with lastError := TLN_Error.refPalette })
  else
    (false, { s with lastError := TLN_Error.refBitmap })

/-- Function `TLN_GetBitmapWidth` (Bitmap.c lines 247-259): type-checked accessor,
zero sentinel on failure. -/
def TLN_GetBitmapWidth (s : EngineState) (ref : Option Nat) : Nat × EngineState :=
  if CheckBaseObject s ref ObjType.bitmap then
    match getBitmapFields s ref with
    | some f => (f.width, { s with lastError := TLN_Error.ok })
    | none => (0, { s with lastError := TLN_Error.ok })
  else
    (0, { s with lastError := TLN_Error.refBitmap })

/-- Function `TLN_GetBitmapHeight` (Bitmap.c lines 268-280): type-checked accessor. -/
def TLN_GetBitmapHeight (s : EngineState) (ref : Option Nat) : Nat × EngineState :=
  if CheckBaseObject s ref ObjType.bitmap then
    match getBitmapFields s ref with
    | some f => (f.height, { s with lastError := TLN_Error.ok })
    | none => (0, { s with lastError := TLN_Error.ok })
  else
    (0, { s with lastError := TLN_Error.refBitmap })

/-- Function `TLN_GetBitmapDepth` (Bitmap.c lines 289-301): type-checked accessor. -/
def TLN_GetBitmapDepth (s : EngineState) (ref : Option Nat) : Nat × EngineState :=
  if CheckBaseObject s ref ObjType.bitmap then
    match getBitmapFields s ref with
    | some f => (f.bpp, { s with lastError := TLN_Error.ok })
    | none => (0, { s with lastError := TLN_Error.ok })
  else
    (0, { s with lastError := TLN_Error.refBitmap })

/-- Function `TLN_GetBitmapPitch` (Bitmap.c lines 310-321): type-checked accessor. -/
def TLN_GetBitmapPitch (s : EngineState) (ref : Option Nat) : Nat × EngineState :=
  if CheckBaseObject s ref ObjType.bitmap then
    match getBitmapFields s ref with
    | some f => (f.pitch, { s with lastError := TLN_Error.ok })
    | none => (0, { s with lastError := TLN_Error.ok })
  else
    (0, { s with lastError := TLN_Error.refBitmap })

/-! ### C6 and C7: pitch arithmetic -/

/-- The shift `>>3` in the pitch computation is division by 8. -/
theorem shiftRight3_eq_div8 (t : Nat) : t >>> 3 = t / 8 := by
  rw [Nat.shiftRight_eq_div_pow]

/-- C6 counterexample: at `width = 33, bpp = 1` the code computes
`pitch = (((33*1)>>3)+3) & ~3 = 4`, while `align4(ceil(33*1/8)) = 8` — the
code rounds the row size *down* (`>>3` is floor division) before aligning,
so for a bpp that is not a multiple of 8 the stored pitch is not
`align4(ceil(width*bpp/8))` (and is even smaller than the minimal row
size). -/
theorem c6_pitch_counterexample :
    bitmapPitch 33 1 = 4 ∧
    specAlign4 (specCeilRow 33 1) = 8 ∧
    getBitmapFields (TLN_CreateBitmap 0 true 33 1 1 emptyState).2
        (TLN_CreateBitmap 0 true 33 1 1 emptyState).1
      = some { width := 33, height := 1, bpp := 1, pitch := 4, palette := none } ∧
    bitmapPitch 33 1 ≠ specAlign4 (specCeilRow 33 1) := by
  refine ⟨rfl, rfl, rfl, by decide⟩

/-- C6 amended: `TLN_CreateBitmap` computes the stored pitch as
`align4(floor(width*bpp/8))` — the least multiple of 4 at least
`floor(width*bpp/8)` is obtained because `(x+3) & ~3` rounds `x` up to a
multiple of 4 — which coincides with `align4(ceil(width*bpp/8))` whenever
`width*bpp` is a multiple of 8 (in particular for bpp in {8,16,24,32});
and it requests an allocation of `header + pitch*height` bytes, storing
width/height/bpp/pitch in the created object. -/
theorem c6_pitch_amended (hdr : Nat) (allocOk : Bool) (width height bpp : Nat)
    (s : EngineState) :
    (TLN_CreateBitmap hdr allocOk width height bpp s).2.lastAllocReq
      = some (hdr + bitmapPitch width bpp * height) ∧
    bitmapPitch width bpp = specAlign4 (width * bpp / 8) ∧
    (width * bpp % 8 = 0 →
      bitmapPitch width bpp = specAlign4 (specCeilRow width bpp)) ∧
    (∀ a, (TLN_CreateBitmap hdr allocOk width height bpp s).1 = some a →
      getBitmapFields (TLN_CreateBitmap hdr allocOk width height bpp s).2 (some a)
        = some { width := width, height := height, bpp := bpp,
                 pitch := bitmapPitch width bpp, palette := none }) := by
  refine ⟨?_, ?_, ?_, ?_⟩
  · cases allocOk <;> rfl
  · unfold bitmapPitch specAlign4
    rw [shiftRight3_eq_div8]
    omega
  · intro hmul
    unfold bitmapPitch specAlign4 specCeilRow
    rw [shiftRight3_eq_div8]
    omega
  · intro a ha
    cases allocOk with
    | false => exact Option.noConfusion ha
    | true =>
      have haddr : a = s.nextAddr := by
        simpa [TLN_CreateBitmap, CreateBaseObject, eq_comm] using ha
      subst haddr
      simp [TLN_CreateBitmap, CreateBaseObject, setBitmap, getBitmapFields, zeroData]

/-- Witness for C6's amended statement at `hdr = 40`, a successful
allocation, and `(width, height, bpp) = (33, 1, 1)` from the empty state. -/
theorem c6_pitch_amended_witness :
    (TLN_CreateBitmap 40 true 33 1 1 emptyState).2.lastAllocReq
      = some (40 + bitmapPitch 33 1 * 1) ∧
    bitmapPitch 33 1 = specAlign4 (33 * 1 / 8) ∧
    getBitmapFields (TLN_CreateBitmap 40 true 33 1 1 emptyState).2 (some 0)
      = some { width := 33, height := 1, bpp := 1,
               pitch := bitmapPitch 33 1, palette := none } :=
  ⟨(c6_pitch_amended 40 true 33 1 1 emptyState).1,
   (c6_pitch_amended 40 true 33 1 1 emptyState).2.1,
   (c6_pitch_amended 40 true 33 1 1 emptyState).2.2.2 0 rfl⟩

/-- C7: for bpp in {8,16,24,32} the computed pitch is a multiple of 4 and
at least the minimal row size `ceil(width*bpp/8)`; concretely,
`TLN_CreateBitmap(10,10,8)` stores pitch 12 and the pixel storage is
`pitch * height = 120` bytes. -/
theorem c7_pitch_aligned (width height bpp : Nat)
    (hb : bpp = 8 ∨ bpp = 16 ∨ bpp = 24 ∨ bpp = 32) :
    bitmapPitch width bpp % 4 = 0 ∧
    specCeilRow width bpp ≤ bitmapPitch width bpp ∧
    getBitmapFields (TLN_CreateBitmap 0 true 10 10 8 emptyState).2
        (TLN_CreateBitmap 0 true 10 10 8 emptyState).1
      = some { width := 10, height := 10, bpp := 8, pitch := 12, palette := none } ∧
    bitmapPitch 10 8 * 10 = 120 := by
  refine ⟨?_, ?_, rfl, rfl⟩
  · unfold bitmapPitch
    omega
  · unfold bitmapPitch specCeilRow
    rw [shiftRight3_eq_div8]
    rcases hb with rfl | rfl | rfl | rfl <;> omega

/-- Witness for C7 at `(width, height, bpp) = (10, 10, 8)`. -/
theorem c7_pitch_aligned_witness :
    bitmapPitch 10 8 % 4 = 0 ∧
    specCeilRow 10 8 ≤ bitmapPitch 10 8 ∧
    getBitmapFields (TLN_CreateBitmap 0 true 10 10 8 emptyState).2
        (TLN_CreateBitmap 0 true 10 10 8 emptyState).1
      = some { width := 10, height := 10, bpp := 8, pitch := 12, palette := none } ∧
    bitmapPitch 10 8 * 10 = 120 :=
  c7_pitch_aligned 10 10 8 (Or.inl rfl)

/-! ### C8 -/

/-- C8: on a valid bitmap, `TLN_GetBitmapPtr` fails — returning NULL with
the out-of-range error — exactly when `x ≥ width` or `y ≥ height`, and only
these upper bounds are checked: negative coordinates are not validated and
never trigger the out-of-range failure (a negative `x` with `y` in range
yields a successful call). -/
theorem c8_ptr_bounds (s : EngineState) (a : Nat) (o : Obj) (f : BitmapFields)
    (ho : s.heap a = some o) (hd : o.data = ObjData.bitmapD f) (x y : Int) :
    (((TLN_GetBitmapPtr s (some a) x y).1 = none ∧
      (TLN_GetBitmapPtr s (some a) x y).2.lastError = TLN_Error.wrongSize) ↔
      ((f.width : Int) ≤ x ∨ (f.height : Int) ≤ y)) ∧
    (x < 0 → y < (f.height : Int) →
      ((TLN_GetBitmapPtr s (some a) x y).1.isSome = true ∧
       (TLN_GetBitmapPtr s (some a) x y).2.lastError = TLN_Error.ok)) := by
  have hcheck : CheckBaseObject s (some a) ObjType.bitmap = true := by
    simp [CheckBaseObject, ho, hd, tagOf]
  have hf : getBitmapFields s (some a) = some f := by
    simp [getBitmapFields, ho, hd]
  by_cases hb : (f.width : Int) ≤ x ∨ (f.height : Int) ≤ y
  · constructor
    · refine iff_of_true ?_ hb
      simp [TLN_GetBitmapPtr, hcheck, hf, hb]
    · intro hx hy
      exfalso
      rcases hb with hw | hh
      · have : (0 : Int) ≤ (f.width : Int) := Int.ofNat_nonneg f.width
        omega
      · omega
  · constructor
    · refine iff_of_false ?_ hb
      simp [TLN_GetBitmapPtr, hcheck, hf, hb]
    · intro _ _
      simp [TLN_GetBitmapPtr, hcheck, hf, hb]

/-- A heap containing one valid 10×10×8bpp bitmap at address 0, used as the
concrete valid bitmap for C8's witness. -/
def c8Bitmap : Obj :=
  { owns := false, size := 160,
    data := .bitmapD { width := 10, height := 10, bpp := 8, pitch := 12,
                       palette := none } }

/-- Engine state holding `c8Bitmap` at address 0. -/
def c8State : EngineState :=
  { heap := fun n => if n = 0 then some c8Bitmap else none,
    nextAddr := 1, lastError := .ok, lastAllocReq := none }

/-- Witness for C8: the boundary call `(bmp, width, 0)` on the concrete
10×10 bitmap fails with the out-of-range error. -/
theorem c8_ptr_bounds_witness :
    (TLN_GetBitmapPtr c8State (some 0) 10 0).1 = none ∧
    (TLN_GetBitmapPtr c8State (some 0) 10 0).2.lastError = TLN_Error.wrongSize :=
  (c8_ptr_bounds c8State 0 c8Bitmap
      { width := 10, height := 10, bpp := 8, pitch := 12, palette := none }
      rfl rfl 10 0).1.mpr (Or.inl (by norm_num))

/-! ### C9 -/

/-- C9: `TLN_DeleteBitmap` on a valid bitmap that owns its palette deletes
the owned palette object and the bitmap block (both references become
invalid) and touches no other object; on a valid bitmap that does not own
its palette it deletes only the bitmap block, leaving every other object
(in particular a shared palette) untouched and usable; on a reference that
fails the bitmap type check it returns false with the WrongReferenceBitmap
error and deletes nothing. -/
theorem c9_delete_semantics (s : EngineState) :
    (∀ a o f p, s.heap a = some o → o.owns = true →
      o.data = ObjData.bitmapD f → f.palette = some p →
      (TLN_DeleteBitmap s (some a)).1 = true ∧
      (TLN_DeleteBitmap s (some a)).2.lastError = TLN_Error.ok ∧
      (TLN_DeleteBitmap s (some a)).2.heap p = none ∧
      (TLN_DeleteBitmap s (some a)).2.heap a = none ∧
      (∀ q, q ≠ a → q ≠ p → (TLN_DeleteBitmap s (some a)).2.heap q = s.heap q)) ∧
    (∀ a o f, s.heap a = some o → o.owns = false →
      o.data = ObjData.bitmapD f →
      (TLN_DeleteBitmap s (some a)).1 = true ∧
      (TLN_DeleteBitmap s (some a)).2.lastError = TLN_Error.ok ∧
      (TLN_DeleteBitmap s (some a)).2.heap a = none ∧
      (∀ q, q ≠ a → (TLN_DeleteBitmap s (some a)).2.heap q = s.heap q)) ∧
    (∀ r, CheckBaseObject s r ObjType.bitmap = false →
      (TLN_DeleteBitmap s r).1 = false ∧
      (TLN_DeleteBitmap s r).2.lastError = TLN_Error.refBitmap ∧
      (TLN_DeleteBitmap s r).2.heap = s.heap) := by
  refine ⟨?_, ?_, ?_⟩
  · intro a o f p ho hown hd hp
    have hcheck : CheckBaseObject s (some a) ObjType.bitmap = true := by
      simp [CheckBaseObject, ho, hd, tagOf]
    have howner : ObjectOwner s (some a) = true := by
      simp [ObjectOwner, ho, hown]
    have hf : getBitmapFields s (some a) = some f := by
      simp [getBitmapFields, ho, hd]
    refine ⟨by simp [TLN_DeleteBitmap, hcheck], by simp [TLN_DeleteBitmap, hcheck], ?_, ?_, ?_⟩
    · simp only [TLN_DeleteBitmap, hcheck, if_true, howner, hf, hp]
      by_cases hpa : p = a <;> simp [DeleteBaseObject, hpa]
    · simp [TLN_DeleteBitmap, hcheck, howner, hf, hp, DeleteBaseObject]
    · intro q hqa hqp
      simp [TLN_DeleteBitmap, hcheck, howner, hf, hp, DeleteBaseObject, hqa, hqp]
  · intro a o f ho hown hd
    have hcheck : CheckBaseObject s (some a) ObjType.bitmap = true := by
      simp [CheckBaseObject, ho, hd, tagOf]
    have howner : ObjectOwner s (some a) = false := by
      simp [ObjectOwner, ho, hown]
    refine ⟨by simp [TLN_DeleteBitmap, hcheck], by simp [TLN_DeleteBitmap, hcheck], ?_, ?_⟩
    · simp [TLN_DeleteBitmap, hcheck, howner, DeleteBaseObject]
    · intro q hqa
      simp [TLN_DeleteBitmap, hcheck, howner, DeleteBaseObject, hqa]
  · intro r hfail
    simp [TLN_DeleteBitmap, hfail]

/-- Heap for C9's witness: an owning bitmap at address 0 and a non-owning
bitmap at address 2, both referring to the palette object at address 1. -/
def c9State : EngineState :=
  { heap := fun n =>
      if n = 0 then
        some { owns := true, size := 0,
               data := .bitmapD { width := 1, height := 1, bpp := 8,
                                  pitch := 4, palette := some 1 } }
      else if n = 1 then
        some { owns := false, size := 0, data := .paletteD }
      else if n = 2 then
        some { owns := false, size := 0,
               data := .bitmapD { width := 1, height := 1, bpp := 8,
                                  pitch := 4, palette := some 1 } }
      else none,
    nextAddr := 3, lastError := .ok, lastAllocReq := none }

/-- Witness for C9: deleting the owning bitmap at 0 removes the palette at
1; deleting the sharing bitmap at 2 leaves the palette at 1 untouched;
deleting the dead reference 3 fails with WrongReferenceBitmap and leaves
the heap unchanged. -/
theorem c9_delete_semantics_witness :
    ((TLN_DeleteBitmap c9State (some 0)).1 = true ∧
     (TLN_DeleteBitmap c9State (some 0)).2.heap 1 = none ∧
     (TLN_DeleteBitmap c9State (some 0)).2.heap 0 = none) ∧
    ((TLN_DeleteBitmap c9State (some 2)).1 = true ∧
     (TLN_DeleteBitmap c9State (some 2)).2.heap 2 = none ∧
     (TLN_DeleteBitmap c9State (some 2)).2.heap 1 = c9State.heap 1) ∧
    ((TLN_DeleteBitmap c9State (some 3)).1 = false ∧
     (TLN_DeleteBitmap c9State (some 3)).2.lastError = TLN_Error.refBitmap ∧
     (TLN_DeleteBitmap c9State (some 3)).2.heap = c9State.heap) := by
  have h1 := (c9_delete_semantics c9State).1 0
    { owns := true, size := 0,
      data := .bitmapD { width := 1, height := 1, bpp := 8,
                         pitch := 4, palette := some 1 } }
    { width := 1, height := 1, bpp := 8, pitch := 4, palette := some 1 }
    1 rfl rfl rfl rfl
  have h2 := (c9_delete_semantics c9State).2.1 2
    { owns := false, size := 0,
      data := .bitmapD { width := 1, height := 1, bpp := 8,
                         pitch := 4, palette := some 1 } }
    { width := 1, height := 1, bpp := 8, pitch := 4, palette := some 1 }
    rfl rfl rfl
  have h3 := (c9_delete_semantics c9State).2.2 (some 3) rfl
  exact ⟨⟨h1.1, h1.2.2.1, h1.2.2.2.1⟩,
         ⟨h2.1, h2.2.2.1, h2.2.2.2 1 (by omega)⟩,
         ⟨h3.1, h3.2.1, h3.2.2⟩⟩

/-! ### C10 -/

/-- One public bitmap operation of Bitmap.c together with its arguments
(and, for the allocating operations, the allocation oracle; for creation,
the `sizeof(struct Bitmap)` constant). -/
inductive BitmapOp where
  | create (hdr : Nat) (allocOk : Bool) (width height bpp : Nat)
  | clone (allocOk : Bool) (src : Option Nat)
  | delete (ref : Option Nat)
  | getPtr (ref : Option Nat) (x y : Int)
  | getPalette (ref : Option Nat)
  | setPalette (ref pal : Option Nat)
  | getWidth (ref : Option Nat)
  | getHeight (ref : Option Nat)
  | getDepth (ref : Option Nat)
  | getPitch (ref : Option Nat)

/-- Execute one public bitmap operation, keeping only the engine state. -/
def execOp (op : BitmapOp) (s : EngineState) : EngineState :=
  match op with
  | .create hdr allocOk width height bpp =>
    (TLN_CreateBitmap hdr allocOk width height bpp s).2
  | .clone allocOk src => (TLN_CloneBitmap allocOk s src).2
  | .delete ref => (TLN_DeleteBitmap s ref).2
  | .getPtr ref x y => (TLN_GetBitmapPtr s ref x y).2
  | .getPalette ref => (TLN_GetBitmapPalette s ref).2
  | .setPalette ref pal => (TLN_SetBitmapPalette s ref pal).2
  | .getWidth ref => (TLN_GetBitmapWidth s ref).2
  | .getHeight ref => (TLN_GetBitmapHeight s ref).2
  | .getDepth ref => (TLN_GetBitmapDepth s ref).2
  | .getPitch ref => (TLN_GetBitmapPitch s ref).2

/-- The out-of-range condition of `TLN_GetBitmapPtr` on a bitmap
reference. -/
def ptrOutOfRange (s : EngineState) (ref : Option Nat) (x y : Int) : Bool :=
  match getBitmapFields s ref with
  | some f => decide ((f.width : Int) ≤ x) || decide ((f.height : Int) ≤ y)
  | none => false

/-- The last-error code each operation is specified to leave behind, per
the spec's error-reporting convention: OK on success, and the matching
error code (WrongReferenceBitmap, WrongReferencePalette, OutOfMemory or
OutOfRange) on failure; determined only by the operation, its arguments and
the pre-call heap — never by the previous last-error value. -/
def specLastError : BitmapOp → EngineState → TLN_Error
  | .create _ allocOk _ _ _, _ =>
    if allocOk then .ok else .outOfMemory
  | .clone allocOk src, s =>
    if CheckBaseObject s src ObjType.bitmap then
      (if allocOk then .ok else .outOfMemory)
    else .refBitmap
  | .delete ref, s =>
    if CheckBaseObject s ref ObjType.bitmap then .ok else .refBitmap
  | .getPtr ref x y, s =>
    if CheckBaseObject s ref ObjType.bitmap then
      (if ptrOutOfRange s ref x y then .wrongSize else .ok)
    else .refBitmap
  | .getPalette ref, s =>
    if CheckBaseObject s ref ObjType.bitmap then .ok else .refBitmap
  | .setPalette ref pal, s =>
    if CheckBaseObject s ref ObjType.bitmap then
      (if CheckBaseObject s pal ObjType.palette then .ok else .refPalette)
    else .refBitmap
  | .getWidth ref, s =>
    if CheckBaseObject s ref ObjType.bitmap then .ok else .refBitmap
  | .getHeight ref, s =>
    if CheckBaseObject s ref ObjType.bitmap then .ok else .refBitmap
  | .getDepth ref, s =>
    if CheckBaseObject s ref ObjType.bitmap then .ok else .refBitmap
  | .getPitch ref, s =>
    if CheckBaseObject s ref ObjType.bitmap then .ok else .refBitmap

/-- The type check reads only the heap, not the last-error state. -/
theorem check_irrel (s : EngineState) (e : TLN_Error) (r : Option Nat)
    (t : ObjType) :
    CheckBaseObject { s with lastError := e } r t = CheckBaseObject s r t := rfl

/-- Payload lookup reads only the heap, not the last-error state. -/
theorem fields_irrel (s : EngineState) (e : TLN_Error) (r : Option Nat) :
    getBitmapFields { s with lastError := e } r = getBitmapFields s r := rfl

/-- A reference passing the bitmap type check is a live bitmap block. -/
theorem check_bitmap_destruct (s : EngineState) (r : Option Nat)
    (h : CheckBaseObject s r ObjType.bitmap = true) :
    ∃ a f, r = some a ∧ getBitmapFields s r = some f ∧
      ∃ o, s.heap a = some o ∧ o.data = ObjData.bitmapD f := by
  cases r with
  | none => exact Bool.noConfusion h
  | some a =>
    cases hh : s.heap a with
    | none => simp [CheckBaseObject, hh] at h
    | some o =>
      simp only [CheckBaseObject, hh, decide_eq_true_eq] at h
      cases hdd : o.data with
      | paletteD => rw [hdd] at h; exact ObjType.noConfusion h
      | bitmapD f =>
        exact ⟨a, f, rfl, by simp [getBitmapFields, hh, hdd], o, hh, hdd⟩

/-- C10: every public bitmap operation of Bitmap.c overwrites the
process-wide last-error state on every execution path — whatever error code
`e` was stored before the call, afterwards the state holds exactly
`specLastError`: OK on success and the matching error code
(WrongReferenceBitmap, WrongReferencePalette, OutOfMemory, OutOfRange) on
failure, determined only by the operation, its arguments and the pre-call
heap. -/
theorem c10_last_error_discipline (op : BitmapOp) (s : EngineState)
    (e : TLN_Error) :
    (execOp op { s with lastError := e }).lastError = specLastError op s := by
  cases op with
  | create hdr allocOk width height bpp =>
    show (TLN_CreateBitmap hdr allocOk width height bpp
        { s with lastError := e }).2.lastError = _
    cases allocOk <;> rfl
  | clone allocOk src =>
    show (TLN_CloneBitmap allocOk { s with lastError := e } src).2.lastError = _
    by_cases hc : CheckBaseObject s src ObjType.bitmap
    · obtain ⟨a, f, rfl, _, o, ho, _⟩ := check_bitmap_destruct s src hc
      cases allocOk <;>
        simp [TLN_CloneBitmap, CloneBaseObject, check_irrel, hc, ho, specLastError]
    · simp [TLN_CloneBitmap, check_irrel, hc, specLastError]
  | delete ref =>
    show (TLN_DeleteBitmap { s with lastError := e } ref).2.lastError = _
    by_cases hc : CheckBaseObject s ref ObjType.bitmap
    · simp [TLN_DeleteBitmap, check_irrel, hc, specLastError]
    · simp [TLN_DeleteBitmap, check_irrel, hc, specLastError]
  | getPtr ref x y =>
    show (TLN_GetBitmapPtr { s with lastError := e } ref x y).2.lastError = _
    by_cases hc : CheckBaseObject s ref ObjType.bitmap
    · obtain ⟨a, f, rfl, hf, _⟩ := check_bitmap_destruct s ref hc
      by_cases hb : (f.width : Int) ≤ x ∨ (f.height : Int) ≤ y
      · simp [TLN_GetBitmapPtr, check_irrel, fields_irrel, hc, hf, hb,
              specLastError, ptrOutOfRange]
      · simp [TLN_GetBitmapPtr, check_irrel, fields_irrel, hc, hf, hb,
              specLastError, ptrOutOfRange]
    · simp [TLN_GetBitmapPtr, check_irrel, hc, specLastError]
  | getPalette ref =>
    show (TLN_GetBitmapPalette { s with lastError := e } ref).2.lastError = _
    by_cases hc : CheckBaseObject s ref ObjType.bitmap
    · obtain ⟨a, f, rfl, hf, _⟩ := check_bitmap_destruct s ref hc
      simp [TLN_GetBitmapPalette, check_irrel, fields_irrel, hc, hf, specLastError]
    · simp [TLN_GetBitmapPalette, check_irrel, hc, specLastError]
  | setPalette ref pal =>
    show (TLN_SetBitmapPalette { s with lastError := e } ref pal).2.lastError = _
    by_cases hc : CheckBaseObject s ref ObjType.bitmap
    · by_cases hp : CheckBaseObject s pal ObjType.palette
      · obtain ⟨a, f, rfl, _, _⟩ := check_bitmap_destruct s ref hc
        simp [TLN_SetBitmapPalette, check_irrel, hc, hp, specLastError, setBitmap]
      · simp [TLN_SetBitmapPalette, check_irrel, hc, hp, specLastError]
    · simp [TLN_SetBitmapPalette, check_irrel, hc, specLastError]
  | getWidth ref =>
    show (TLN_GetBitmapWidth { s with lastError := e } ref).2.lastError = _
    by_cases hc : CheckBaseObject s ref ObjType.bitmap
    · obtain ⟨a, f, rfl, hf, _⟩ := check_bitmap_destruct s ref hc
      simp [TLN_GetBitmapWidth, check_irrel, fields_irrel, hc, hf, specLastError]
    · simp [TLN_GetBitmapWidth, check_irrel, hc, specLastError]
  | getHeight ref =>
    show (TLN_GetBitmapHeight { s with lastError := e } ref).2.lastError = _
    by_cases hc : CheckBaseObject s ref ObjType.bitmap
    · obtain ⟨a, f, rfl, hf, _⟩ := check_bitmap_destruct s ref hc
      simp [TLN_GetBitmapHeight, check_irrel, fields_irrel, hc, hf, specLastError]
    · simp [TLN_GetBitmapHeight, check_irrel, hc, specLastError]
  | getDepth ref =>
    show (TLN_GetBitmapDepth { s with lastError := e } ref).2.lastError = _
    by_cases hc : CheckBaseObject s ref ObjType.bitmap
    · obtain ⟨a, f, rfl, hf, _⟩ := check_bitmap_destruct s ref hc
      simp [TLN_GetBitmapDepth, check_irrel, fields_irrel, hc, hf, specLastError]
    · simp [TLN_GetBitmapDepth, check_irrel, hc, specLastError]
  | getPitch ref =>
    show (TLN_GetBitmapPitch { s with lastError := e } ref).2.lastError = _
    by_cases hc : CheckBaseObject s ref ObjType.bitmap
    · obtain ⟨a, f, rfl, hf, _⟩ := check_bitmap_destruct s ref hc
      simp [TLN_GetBitmapPitch, check_irrel, fields_irrel, hc, hf, specLastError]
    · simp [TLN_GetBitmapPitch, check_irrel, hc, specLastError]
